import Mathlib

/-!
# Verification of `tensorflow_lattice/python/premade.py`

A shallow embedding of the premade-model module: the four premade model
classes (`CalibratedLatticeEnsemble`, `CalibratedLattice`, `CalibratedLinear`,
`AggregateFunction`), their constructors, `get_config` and `from_config`.

The module under verification is orchestration glue: it validates a
configuration object, invokes builder functions from `premade_lib` (a sibling
module that is not part of the sources here), wires the resulting tensors, and
delegates to the host framework's model class.  Python exceptions are embedded
as an `Except PyError` result; the symbolic tensor graph built by the layer
builders is embedded as the inductive type `Tensor`.  Numeric configuration
fields are embedded as rationals: the module only stores and compares them,
never computes with them.
-/

set_option autoImplicit false

namespace Premade

/-- The Python exception classes that the embedded code can raise.  The module
raises `ValueError` itself; the embedded builders and dictionary accesses can
also surface `KeyError`, `IndexError`, `TypeError` and `AttributeError`. -/
inductive PyError where
  | valueError (msg : String)
  | typeError (msg : String)
  | keyError (msg : String)
  | indexError (msg : String)
  | attributeError (msg : String)
deriving DecidableEq, Repr

/-- Modelled from the spec: `premade_lib.LayerOutputRange`, the enumeration the
builders receive to decide the output range of a layer (`INPUT_TO_LATTICE`,
`INPUT_TO_FINAL_CALIBRATION`, `MODEL_OUTPUT`). -/
inductive LayerOutputRange where
  | inputToLattice
  | inputToFinalCalibration
  | modelOutput
deriving DecidableEq, Repr

/-- Modelled from the spec: `tfl.configs.FeatureConfig`.  The premade module
only ever reads a feature config's `name` and passes the record through to the
builders, so only the name is embedded. -/
structure FeatureConfig where
  name : String
deriving DecidableEq, Repr

/-- Modelled from the spec: `tfl.configs.RegularizerConfig`.  Passed through
unread by the premade module. -/
structure RegularizerConfig where
  name : String
  l1 : Rat
  l2 : Rat
deriving DecidableEq, Repr

/-- The config class of a configuration object, standing for the Python class
tag checked by `isinstance` in the premade constructors.  `otherConfig` stands
for any object of an unrelated class. -/
inductive ConfigType where
  | ensembleConfig
  | latticeConfig
  | linearConfig
  | aggregateConfig
  | otherConfig
deriving DecidableEq, Repr

/-- Modelled from the spec: the configuration records of `tfl.configs`
(`CalibratedLatticeEnsembleConfig`, `CalibratedLatticeConfig`,
`CalibratedLinearConfig`, `AggregateFunctionConfig`), merged into one record
carrying every field the premade module reads, with `ctype` recording the
Python class of the object.  Fields a particular class does not declare are
simply never read on objects of that class. -/
structure ModelConfig where
  ctype : ConfigType
  feature_configs : List FeatureConfig
  regularizer_configs : List RegularizerConfig
  lattices : List (List String)
  separate_calibrators : Bool
  output_calibration : Bool
  output_min : Option Rat
  output_max : Option Rat
  output_initialization : List Rat
  middle_dimension : Nat
deriving DecidableEq, Repr

/-- Modelled from the spec: `configs` `feature_config_by_name`, which returns
the feature config with the given name and raises a `ValueError` when no
feature config carries that name. -/
def ModelConfig.feature_config_by_name (mc : ModelConfig) (feature_name : String) :
    Except PyError FeatureConfig :=
  match mc.feature_configs.find? (fun fc => fc.name == feature_name) with
  | some fc => Except.ok fc
  | none => Except.error (PyError.valueError "Feature configuration not found")

/-- The symbolic tensor graph built by the layer builders.  Each constructor
records which builder produced the tensor and the arguments the premade module
passed to that builder. -/
inductive Tensor where
  | input (name : String) (ragged : Bool)
  | calibration (featureNames : List String) (range : LayerOutputRange)
  | lattice (latticeInput : Tensor) (featureNames : List String)
      (range : LayerOutputRange) (submodelIndex : Nat) (insideEnsemble : Bool)
  | average (ts : List Tensor)
  | linear (linearInput : Tensor) (featureNames : List String)
      (weightedAverage : Bool) (submodelIndex : Nat)
  | outputCal (t : Tensor)
  | aggregation (aggInputs : List Tensor) (perItemOutputs : List (List Tensor))
      (range : LayerOutputRange) (submodelIndex : Nat)

/-- First-match lookup in a string-keyed association list, the embedding of a
Python dictionary read. -/
def dictLookup {β : Type} : List (String × β) → String → Option β
  | [], _ => none
  | (k2, v) :: rest, k => if k2 = k then some v else dictLookup rest k

/-- A Python `d[k]` read: `KeyError` when the key is absent. -/
def dictGetT (d : List (String × Tensor)) (k : String) : Except PyError Tensor :=
  match dictLookup d k with
  | some t => Except.ok t
  | none => Except.error (PyError.keyError k)

/-- A fallible map over a list, the embedding of a Python list comprehension
whose body may raise: the first raised exception propagates. -/
def mapME {α β : Type} (f : α → Except PyError β) : List α → Except PyError (List β)
  | [] => Except.ok []
  | a :: l =>
    match f a with
    | Except.error e => Except.error e
    | Except.ok b =>
      match mapME f l with
      | Except.error e => Except.error e
      | Except.ok bs => Except.ok (b :: bs)

/-- Modelled from the spec: `premade_lib.verify_config`, the validation step
that raises a `ValueError` when the configuration is not fully specified or is
internally inconsistent: feature configs must be present, and an ensemble
config must carry an explicit, consistent lattice assignment (each lattice is
a list of names of declared features).  Called on `None` it trips over the
missing attribute, as any Python attribute read on `None` does. -/
def verify_config : Option ModelConfig → Except PyError Unit
  | none =>
      Except.error (PyError.attributeError "NoneType object has no attribute feature_configs")
  | some mc =>
      if mc.feature_configs.isEmpty then
        Except.error (PyError.valueError "Feature configs must be fully specified.")
      else if mc.ctype = ConfigType.ensembleConfig then
        if mc.lattices.isEmpty then
          Except.error (PyError.valueError "Lattices must be fully specified.")
        else if mc.lattices.all
            (fun l => l.all (fun n => mc.feature_configs.any (fun fc => fc.name == n))) then
          Except.ok ()
        else
          Except.error (PyError.valueError "Lattices refer to undeclared features.")
      else
        Except.ok ()

/-- Modelled from the spec: `premade_lib.build_input_layer`, which returns a
dictionary mapping each feature name to an input tensor for that feature,
ragged when requested. -/
def build_input_layer (feature_configs : List FeatureConfig) (ragged : Bool) :
    List (String × Tensor) :=
  feature_configs.map (fun fc => (fc.name, Tensor.input fc.name ragged))

/-- Modelled from the spec: `premade_lib.build_calibration_layers`, which
returns one calibration sub-graph per submodel, in submodel order.  The
embedding records the feature names of each submodel and the requested output
range. -/
def build_calibration_layers (calibration_input_layer : List (String × Tensor))
    (feature_configs : List FeatureConfig) (model_config : ModelConfig)
    (layer_output_range : LayerOutputRange) (submodels : List (List String))
    (separate_calibrators : Bool) : List Tensor :=
  submodels.map (fun names => Tensor.calibration names layer_output_range)

/-- Modelled from the spec: `premade_lib.build_lattice_layer`, which builds one
lattice sub-graph over the given calibrated input. -/
def build_lattice_layer (lattice_input : Tensor) (feature_configs : List FeatureConfig)
    (model_config : ModelConfig) (layer_output_range : LayerOutputRange)
    (submodel_index : Nat) (inside_ensemble : Bool) : Tensor :=
  Tensor.lattice lattice_input (feature_configs.map (fun fc => fc.name))
    layer_output_range submodel_index inside_ensemble

/-- Modelled from the spec: `premade_lib.build_linear_layer`; the embedding
records the `weighted_average` flag the premade module computes. -/
def build_linear_layer (linear_input : Tensor) (feature_configs : List FeatureConfig)
    (model_config : ModelConfig) (weighted_average : Bool) (submodel_index : Nat) : Tensor :=
  Tensor.linear linear_input (feature_configs.map (fun fc => fc.name))
    weighted_average submodel_index

/-- Modelled from the spec: `premade_lib.build_output_calibration_layer`. -/
def build_output_calibration_layer (output_calibration_input : Tensor)
    (model_config : ModelConfig) : Tensor :=
  Tensor.outputCal output_calibration_input

/-- Modelled from the spec: `premade_lib.build_aggregation_layer`, which
combines the per-item outputs of the calibrated-lattice submodels over the
ragged input layer.  The framework layer consumes whole submodels; the
embedding records each submodel's output graph. -/
def build_aggregation_layer (aggregation_input_layer : List (String × Tensor))
    (model_config : ModelConfig) (per_item_outputs : List (List Tensor))
    (layer_output_range : LayerOutputRange) (submodel_index : Nat) : Tensor :=
  Tensor.aggregation (aggregation_input_layer.map (fun p => p.2)) per_item_outputs
    layer_output_range submodel_index

/-- The `**kwargs` of a premade constructor: the keyword names present, and the
values of `inputs` and `outputs` when those keywords are present. -/
structure Kwargs where
  keys : List String
  inputs : List Tensor
  outputs : List Tensor

/-- A constructed model object: the `model_config` attribute set by the premade
constructor, and the input and output tensors handed to the host framework. -/
structure PremadeModel where
  model_config : Option ModelConfig
  inputs : List Tensor
  outputs : List Tensor

/-- The host framework's functional-API model constructor
(`tf.keras.Model.__init__`): it keeps the inputs and outputs it was given;
the `model_config` attribute was already set by the premade constructor. -/
def kerasModelInit (model_config : Option ModelConfig) (kwargs : Kwargs) : PremadeModel :=
  { model_config := model_config, inputs := kwargs.inputs, outputs := kwargs.outputs }

/-- The per-submodel loop of `CalibratedLatticeEnsemble.__init__`: for each
`(lattice_feature_names, lattice_input)` pair, with its submodel index, look
up the lattice's feature configs by name and build one lattice layer. -/
def CalibratedLatticeEnsemble.lattice_outputs (mc : ModelConfig) :
    Except PyError (List Tensor) :=
  let input_layer := build_input_layer mc.feature_configs false
  let submodels_inputs := build_calibration_layers input_layer mc.feature_configs mc
    LayerOutputRange.inputToLattice mc.lattices mc.separate_calibrators
  let lattice_layer_output_range :=
    if mc.output_calibration then LayerOutputRange.inputToFinalCalibration
    else LayerOutputRange.modelOutput
  mapME (fun p =>
      match mapME mc.feature_config_by_name p.2.1 with
      | Except.error e => Except.error e
      | Except.ok lattice_feature_configs =>
        Except.ok (build_lattice_layer p.2.2 lattice_feature_configs mc
          lattice_layer_output_range p.1 true))
    ((mc.lattices.zip submodels_inputs).enum)

/-- `CalibratedLatticeEnsemble.__init__`.  The loading path (both `inputs` and
`outputs` in `kwargs`) delegates straight to the framework constructor; the
build path validates the config and assembles calibration, lattice, averaging
and optional output-calibration layers. -/
def CalibratedLatticeEnsemble.init (model_config : Option ModelConfig) (kwargs : Kwargs) :
    Except PyError PremadeModel :=
  if kwargs.keys.contains "inputs" && kwargs.keys.contains "outputs" then
    Except.ok (kerasModelInit model_config kwargs)
  else
    match model_config with
    | none => Except.error (PyError.valueError "Must provide a model_config.")
    | some mc =>
      if mc.ctype ≠ ConfigType.ensembleConfig then
        Except.error (PyError.valueError "Invalid config type")
      else
        match verify_config (some mc) with
        | Except.error e => Except.error e
        | Except.ok _ =>
          let input_layer := build_input_layer mc.feature_configs false
          match CalibratedLatticeEnsemble.lattice_outputs mc with
          | Except.error e => Except.error e
          | Except.ok lattice_outputs =>
            match (if lattice_outputs.length > 1 then
                Except.ok (Tensor.average lattice_outputs)
              else
                match lattice_outputs with
                | [] => Except.error (PyError.indexError "list index out of range")
                | t :: _ => Except.ok t : Except PyError Tensor) with
            | Except.error e => Except.error e
            | Except.ok averaged_lattice_output =>
              let model_output :=
                if mc.output_calibration then
                  build_output_calibration_layer averaged_lattice_output mc
                else averaged_lattice_output
              match mapME (fun fc => dictGetT input_layer fc.name) mc.feature_configs with
              | Except.error e => Except.error e
              | Except.ok inputs =>
                Except.ok (kerasModelInit (some mc)
                  { kwargs with inputs := inputs, outputs := [model_output] })

/-- `CalibratedLattice.__init__`. -/
def CalibratedLattice.init (model_config : Option ModelConfig) (kwargs : Kwargs) :
    Except PyError PremadeModel :=
  if kwargs.keys.contains "inputs" && kwargs.keys.contains "outputs" then
    Except.ok (kerasModelInit model_config kwargs)
  else
    match model_config with
    | none => Except.error (PyError.valueError "Must provide a model_config.")
    | some mc =>
      if mc.ctype ≠ ConfigType.latticeConfig then
        Except.error (PyError.valueError "Invalid config type")
      else
        match verify_config (some mc) with
        | Except.error e => Except.error e
        | Except.ok _ =>
          let input_layer := build_input_layer mc.feature_configs false
          let submodels_inputs := build_calibration_layers input_layer mc.feature_configs mc
            LayerOutputRange.inputToLattice
            [mc.feature_configs.map (fun fc => fc.name)] false
          let lattice_layer_output_range :=
            if mc.output_calibration then LayerOutputRange.inputToFinalCalibration
            else LayerOutputRange.modelOutput
          match submodels_inputs with
          | [] => Except.error (PyError.indexError "list index out of range")
          | s0 :: _ =>
            let lattice_output := build_lattice_layer s0 mc.feature_configs mc
              lattice_layer_output_range 0 false
            let model_output :=
              if mc.output_calibration then
                build_output_calibration_layer lattice_output mc
              else lattice_output
            match mapME (fun fc => dictGetT input_layer fc.name) mc.feature_configs with
            | Except.error e => Except.error e
            | Except.ok inputs =>
              Except.ok (kerasModelInit (some mc)
                { kwargs with inputs := inputs, outputs := [model_output] })

/-- The `weighted_average` flag `CalibratedLinear.__init__` computes for the
linear layer: set when the output is bounded below or above or output
calibration is requested. -/
def CalibratedLinear.weighted_average (mc : ModelConfig) : Bool :=
  mc.output_min.isSome || mc.output_max.isSome || mc.output_calibration

/-- `CalibratedLinear.__init__`. -/
def CalibratedLinear.init (model_config : Option ModelConfig) (kwargs : Kwargs) :
    Except PyError PremadeModel :=
  if kwargs.keys.contains "inputs" && kwargs.keys.contains "outputs" then
    Except.ok (kerasModelInit model_config kwargs)
  else
    match model_config with
    | none => Except.error (PyError.valueError "Must provide a model_config.")
    | some mc =>
      if mc.ctype ≠ ConfigType.linearConfig then
        Except.error (PyError.valueError "Invalid config type")
      else
        match verify_config (some mc) with
        | Except.error e => Except.error e
        | Except.ok _ =>
          let input_layer := build_input_layer mc.feature_configs false
          let calibration_layer_output_range :=
            if mc.output_calibration then LayerOutputRange.inputToFinalCalibration
            else LayerOutputRange.modelOutput
          let submodels_inputs := build_calibration_layers input_layer mc.feature_configs mc
            calibration_layer_output_range
            [mc.feature_configs.map (fun fc => fc.name)] false
          match submodels_inputs with
          | [] => Except.error (PyError.indexError "list index out of range")
          | s0 :: _ =>
            let linear_output := build_linear_layer s0 mc.feature_configs mc
              (CalibratedLinear.weighted_average mc) 0
            let model_output :=
              if mc.output_calibration then
                build_output_calibration_layer linear_output mc
              else linear_output
            match mapME (fun fc => dictGetT input_layer fc.name) mc.feature_configs with
            | Except.error e => Except.error e
            | Except.ok inputs =>
              Except.ok (kerasModelInit (some mc)
                { kwargs with inputs := inputs, outputs := [model_output] })

/-- The `configs.CalibratedLatticeConfig(...)` value `AggregateFunction.__init__`
builds for its inner submodels: the aggregate config's feature and regularizer
configs, output range `[-1, 1]` and output initialization `[-1, 1]`.  Fields
the Python call leaves at their class defaults and that the lattice build never
reads are given inert defaults here. -/
def AggregateFunction.calibrated_lattice_config (mc : ModelConfig) : ModelConfig :=
  { ctype := ConfigType.latticeConfig
    feature_configs := mc.feature_configs
    regularizer_configs := mc.regularizer_configs
    lattices := []
    separate_calibrators := true
    output_calibration := false
    output_min := some (-1)
    output_max := some 1
    output_initialization := [-1, 1]
    middle_dimension := 1 }

/-- The list comprehension in `AggregateFunction.__init__` that constructs one
inner `CalibratedLattice` model per unit of `middle_dimension`. -/
def AggregateFunction.submodels (mc : ModelConfig) : Except PyError (List PremadeModel) :=
  mapME
    (fun _ => CalibratedLattice.init (some (AggregateFunction.calibrated_lattice_config mc))
      { keys := [], inputs := [], outputs := [] })
    (List.range mc.middle_dimension)

/-- `AggregateFunction.__init__`: ragged input layer, `middle_dimension` inner
calibrated-lattice submodels, aggregation layer, optional output
calibration. -/
def AggregateFunction.init (model_config : Option ModelConfig) (kwargs : Kwargs) :
    Except PyError PremadeModel :=
  if kwargs.keys.contains "inputs" && kwargs.keys.contains "outputs" then
    Except.ok (kerasModelInit model_config kwargs)
  else
    match model_config with
    | none => Except.error (PyError.valueError "Must provide a model_config.")
    | some mc =>
      if mc.ctype ≠ ConfigType.aggregateConfig then
        Except.error (PyError.valueError "Invalid config type")
      else
        match verify_config (some mc) with
        | Except.error e => Except.error e
        | Except.ok _ =>
          let input_layer := build_input_layer mc.feature_configs true
          match AggregateFunction.submodels mc with
          | Except.error e => Except.error e
          | Except.ok calibrated_lattice_models =>
            let aggregation_layer_output_range :=
              if mc.output_calibration then LayerOutputRange.inputToFinalCalibration
              else LayerOutputRange.modelOutput
            let aggregation_output := build_aggregation_layer input_layer mc
              (calibrated_lattice_models.map (fun m => m.outputs))
              aggregation_layer_output_range 0
            let model_output :=
              if mc.output_calibration then
                build_output_calibration_layer aggregation_output mc
              else aggregation_output
            match mapME (fun fc => dictGetT input_layer fc.name) mc.feature_configs with
            | Except.error e => Except.error e
            | Except.ok inputs =>
              Except.ok (kerasModelInit (some mc)
                { keys := ["inputs", "outputs"], inputs := inputs,
                  outputs := [model_output] })

/-- A serialized value inside the configuration dictionary: `null` (Python
`None`), plain strings, the framework's serialized model graph, a serialized
configuration object, and blobs whose deserialization raises a `ValueError`
or a `TypeError`. -/
inductive SerializedValue where
  | null
  | str (s : String)
  | graph (inputs outputs : List Tensor)
  | configDict (c : ModelConfig)
  | badValue (tag : String)
  | badType (tag : String)

/-- The host framework's object serialization registry
(`tf.keras.utils.serialize_keras_object`) on the values the premade module
serializes: `None` serializes to `null`, a configuration object to its
serialized dictionary. -/
def serialize_keras_object : Option ModelConfig → SerializedValue
  | none => SerializedValue.null
  | some c => SerializedValue.configDict c

/-- The host framework's object deserialization
(`tf.keras.utils.deserialize_keras_object`): inverse to serialization on
well-formed blobs, `null` deserializes to `None`, and malformed blobs raise a
`ValueError` or a `TypeError` depending on how they are malformed. -/
def deserialize_keras_object : SerializedValue → Except PyError (Option ModelConfig)
  | SerializedValue.null => Except.ok none
  | SerializedValue.configDict c => Except.ok (some c)
  | SerializedValue.str _ => Except.error (PyError.valueError "Unknown object")
  | SerializedValue.graph _ _ => Except.error (PyError.valueError "Unknown object")
  | SerializedValue.badValue tag => Except.error (PyError.valueError tag)
  | SerializedValue.badType tag => Except.error (PyError.typeError tag)

/-- A Python `d.get(k)` read on the configuration dictionary: `None` when the
key is absent. -/
def dictGet (d : List (String × SerializedValue)) (k : String) : SerializedValue :=
  match dictLookup d k with
  | some v => v
  | none => SerializedValue.null

/-- A Python `d[k] = v` write on a dictionary embedded as an association list:
replace the value when the key is present, append the pair otherwise. -/
def dictSet (d : List (String × SerializedValue)) (k : String) (v : SerializedValue) :
    List (String × SerializedValue) :=
  if d.any (fun p => p.1 = k) then
    d.map (fun p => if p.1 = k then (k, v) else p)
  else
    d ++ [(k, v)]

/-- The host framework's `Model.get_config`, the standard model-graph
serialization dictionary: a name entry and the serialized layer graph.  It
carries no `model_config` entry of its own. -/
def kerasModelGetConfig (m : PremadeModel) : List (String × SerializedValue) :=
  [("name", SerializedValue.str "model"), ("layers", SerializedValue.graph m.inputs m.outputs)]

/-- The host framework's `Model.from_config`: reconstruct the model from the
serialized layer graph alone, with no `model_config` attribute attached. -/
def kerasModelFromConfig (config : List (String × SerializedValue)) : PremadeModel :=
  match dictGet config "layers" with
  | SerializedValue.graph ins outs => { model_config := none, inputs := ins, outputs := outs }
  | _ => { model_config := none, inputs := [], outputs := [] }

/-- The body of the `try` block shared by every premade `from_config`:
deserialize the embedded `model_config` entry, then verify it. -/
def tryLoadModelConfig (config : List (String × SerializedValue)) :
    Except PyError (Option ModelConfig) :=
  match deserialize_keras_object (dictGet config "model_config") with
  | Except.error e => Except.error e
  | Except.ok mcO =>
    match verify_config mcO with
    | Except.error e => Except.error e
    | Except.ok _ => Except.ok mcO

/-- The shared shape of every premade `from_config`: reconstruct the model via
the framework, then try to deserialize and verify the embedded `model_config`;
a `ValueError` in that attempt is downgraded to a logged warning, any other
exception propagates. -/
def premadeModelFromConfig (config : List (String × SerializedValue)) :
    Except PyError PremadeModel :=
  let model := kerasModelFromConfig config
  match tryLoadModelConfig config with
  | Except.ok mcO => Except.ok { model with model_config := mcO }
  | Except.error (PyError.valueError _) => Except.ok model
  | Except.error e => Except.error e

/-- `CalibratedLatticeEnsemble.get_config`. -/
def CalibratedLatticeEnsemble.get_config (self : PremadeModel) :
    List (String × SerializedValue) :=
  dictSet (kerasModelGetConfig self) "model_config" (serialize_keras_object self.model_config)

/-- `CalibratedLatticeEnsemble.from_config`. -/
def CalibratedLatticeEnsemble.from_config (config : List (String × SerializedValue)) :
    Except PyError PremadeModel :=
  premadeModelFromConfig config

/-- `CalibratedLattice.get_config`. -/
def CalibratedLattice.get_config (self : PremadeModel) :
    List (String × SerializedValue) :=
  dictSet (kerasModelGetConfig self) "model_config" (serialize_keras_object self.model_config)

/-- `CalibratedLattice.from_config`. -/
def CalibratedLattice.from_config (config : List (String × SerializedValue)) :
    Except PyError PremadeModel :=
  premadeModelFromConfig config

/-- `CalibratedLinear.get_config`. -/
def CalibratedLinear.get_config (self : PremadeModel) :
    List (String × SerializedValue) :=
  dictSet (kerasModelGetConfig self) "model_config" (serialize_keras_object self.model_config)

/-- `CalibratedLinear.from_config`. -/
def CalibratedLinear.from_config (config : List (String × SerializedValue)) :
    Except PyError PremadeModel :=
  premadeModelFromConfig config

/-- `AggregateFunction.get_config`. -/
def AggregateFunction.get_config (self : PremadeModel) :
    List (String × SerializedValue) :=
  dictSet (kerasModelGetConfig self) "model_config" (serialize_keras_object self.model_config)

/-- `AggregateFunction.from_config`. -/
def AggregateFunction.from_config (config : List (String × SerializedValue)) :
    Except PyError PremadeModel :=
  premadeModelFromConfig config

/-- The four premade model classes. -/
inductive PremadeKind where
  | ensemble
  | lattice
  | linear
  | aggregate
deriving DecidableEq, Repr

/-- The config class each premade model class expects its `model_config` to be
an instance of. -/
def expectedConfigType : PremadeKind → ConfigType
  | PremadeKind.ensemble => ConfigType.ensembleConfig
  | PremadeKind.lattice => ConfigType.latticeConfig
  | PremadeKind.linear => ConfigType.linearConfig
  | PremadeKind.aggregate => ConfigType.aggregateConfig

/-- Whether the input layer of a premade model class is built ragged: only the
aggregate-function model requests ragged inputs. -/
def premadeRagged : PremadeKind → Bool
  | PremadeKind.aggregate => true
  | _ => false

/-- The constructor of each premade model class. -/
def premadeInit : PremadeKind → Option ModelConfig → Kwargs → Except PyError PremadeModel
  | PremadeKind.ensemble => CalibratedLatticeEnsemble.init
  | PremadeKind.lattice => CalibratedLattice.init
  | PremadeKind.linear => CalibratedLinear.init
  | PremadeKind.aggregate => AggregateFunction.init

/-- The `get_config` method of each premade model class. -/
def premadeGetConfigOf : PremadeKind → PremadeModel → List (String × SerializedValue)
  | PremadeKind.ensemble => CalibratedLatticeEnsemble.get_config
  | PremadeKind.lattice => CalibratedLattice.get_config
  | PremadeKind.linear => CalibratedLinear.get_config
  | PremadeKind.aggregate => AggregateFunction.get_config

/-- The `from_config` classmethod of each premade model class. -/
def premadeFromConfigOf :
    PremadeKind → List (String × SerializedValue) → Except PyError PremadeModel
  | PremadeKind.ensemble => CalibratedLatticeEnsemble.from_config
  | PremadeKind.lattice => CalibratedLattice.from_config
  | PremadeKind.linear => CalibratedLinear.from_config
  | PremadeKind.aggregate => AggregateFunction.from_config

/-! ## Basic lemmas about the embedding's list combinators -/

theorem mapME_ok_length {α β : Type} {f : α → Except PyError β} {l : List α}
    {ys : List β} (h : mapME f l = Except.ok ys) : ys.length = l.length := by
  induction l generalizing ys with
  | nil => simp [mapME] at h; simp [← h]
  | cons a l ih =>
    simp only [mapME] at h
    cases hfa : f a with
    | error e => rw [hfa] at h; exact absurd h (by simp)
    | ok b =>
      rw [hfa] at h
      cases hrest : mapME f l with
      | error e => rw [hrest] at h; exact absurd h (by simp)
      | ok bs =>
        rw [hrest] at h
        cases h
        simp [ih hrest]

theorem mapME_of_forall_ok {α β : Type} {f : α → Except PyError β} {l : List α}
    (h : ∀ a ∈ l, ∃ b, f a = Except.ok b) :
    ∃ ys, mapME f l = Except.ok ys ∧ ys.length = l.length := by
  induction l with
  | nil => exact ⟨[], rfl, rfl⟩
  | cons a l ih =>
    obtain ⟨b, hb⟩ := h a (List.mem_cons_self a l)
    obtain ⟨ys, hys, hlen⟩ := ih (fun x hx => h x (List.mem_cons_of_mem a hx))
    exact ⟨b :: ys, by simp [mapME, hb, hys], by simp [hlen]⟩

theorem mapME_congr_ok {α β : Type} {f : α → Except PyError β} {g : α → β} {l : List α}
    (h : ∀ a ∈ l, f a = Except.ok (g a)) : mapME f l = Except.ok (l.map g) := by
  induction l with
  | nil => rfl
  | cons a l ih =>
    simp [mapME, h a (List.mem_cons_self a l),
      ih (fun x hx => h x (List.mem_cons_of_mem a hx))]

theorem mapME_const_ok {α β : Type} {e : Except PyError β} {b : β} {l : List α}
    (h : e = Except.ok b) :
    mapME (fun _ => e) l = Except.ok (List.replicate l.length b) := by
  subst h
  induction l with
  | nil => rfl
  | cons a l ih => simp [mapME, ih, List.replicate]

theorem mem_of_mem_enumFrom {α : Type} {p : Nat × α} {l : List α} {n : Nat}
    (h : p ∈ List.enumFrom n l) : p.2 ∈ l := by
  induction l generalizing n with
  | nil => simp [List.enumFrom] at h
  | cons a l ih =>
    simp only [List.enumFrom, List.mem_cons] at h
    rcases h with h | h
    · simp [h]
    · exact List.mem_cons_of_mem a (ih h)

theorem mem_of_mem_enum {α : Type} {p : Nat × α} {l : List α}
    (h : p ∈ l.enum) : p.2 ∈ l :=
  mem_of_mem_enumFrom h

theorem dictLookup_build_input_layer {fcs : List FeatureConfig} {ragged : Bool} {n : String}
    (h : n ∈ fcs.map (fun fc => fc.name)) :
    dictLookup (build_input_layer fcs ragged) n = some (Tensor.input n ragged) := by
  induction fcs with
  | nil => simp at h
  | cons fc fcs ih =>
    simp only [build_input_layer, List.map, dictLookup]
    by_cases hn : fc.name = n
    · simp [hn]
    · simp only [if_neg hn]
      simp only [List.map, List.mem_cons] at h
      rcases h with h | h
      · exact absurd h.symm hn
      · exact ih h

theorem dictGetT_build_input_layer {fcs : List FeatureConfig} {ragged : Bool}
    {fc : FeatureConfig} (h : fc ∈ fcs) :
    dictGetT (build_input_layer fcs ragged) fc.name = Except.ok (Tensor.input fc.name ragged) := by
  have hmem : fc.name ∈ fcs.map (fun fc2 => fc2.name) := List.mem_map_of_mem _ h
  simp [dictGetT, dictLookup_build_input_layer hmem]

theorem inputs_mapME (fcs : List FeatureConfig) (ragged : Bool) :
    mapME (fun fc => dictGetT (build_input_layer fcs ragged) fc.name) fcs =
      Except.ok (fcs.map (fun fc => Tensor.input fc.name ragged)) :=
  mapME_congr_ok (fun fc hfc => dictGetT_build_input_layer hfc)

/-! ## Lemmas about `verify_config` -/

theorem verify_config_some_cases (mc : ModelConfig) :
    verify_config (some mc) = Except.ok () ∨
      ∃ msg, verify_config (some mc) = Except.error (PyError.valueError msg) := by
  simp only [verify_config]
  split_ifs <;> simp

theorem verify_config_features_nonempty {mc : ModelConfig}
    (h : verify_config (some mc) = Except.ok ()) : mc.feature_configs ≠ [] := by
  intro hnil
  simp [verify_config, hnil] at h

theorem verify_config_ensemble_lattices {mc : ModelConfig}
    (ht : mc.ctype = ConfigType.ensembleConfig)
    (h : verify_config (some mc) = Except.ok ()) :
    mc.lattices ≠ [] ∧
      mc.lattices.all
        (fun l => l.all (fun n => mc.feature_configs.any (fun fc => fc.name == n))) = true := by
  simp only [verify_config, ht] at h
  split_ifs at h with h1 h2 h3
  · exact ⟨fun hnil => by simp [hnil] at h2, h3⟩

theorem verify_config_of_nonempty_nonensemble {mc : ModelConfig}
    (hne : mc.feature_configs ≠ [])
    (ht : mc.ctype ≠ ConfigType.ensembleConfig) :
    verify_config (some mc) = Except.ok () := by
  simp [verify_config, List.isEmpty_iff, hne, ht]

theorem feature_config_by_name_ok {mc : ModelConfig} {n : String}
    (h : mc.feature_configs.any (fun fc => fc.name == n) = true) :
    ∃ fc, mc.feature_config_by_name n = Except.ok fc := by
  obtain ⟨fc, hfc, hname⟩ := List.any_eq_true.mp h
  have : (mc.feature_configs.find? (fun fc2 => fc2.name == n)).isSome := by
    rw [List.find?_isSome]
    exact ⟨fc, hfc, hname⟩
  obtain ⟨fc2, hfc2⟩ := Option.isSome_iff_exists.mp this
  exact ⟨fc2, by simp [ModelConfig.feature_config_by_name, hfc2]⟩

/-! ## Characterization of the build paths -/

/-- The output tensor `CalibratedLattice.__init__` builds: a lattice layer
over the single calibration sub-graph, optionally output-calibrated. -/
def CalibratedLattice.model_output_of (mc : ModelConfig) : Tensor :=
  let range :=
    if mc.output_calibration then LayerOutputRange.inputToFinalCalibration
    else LayerOutputRange.modelOutput
  let lat := build_lattice_layer
    (Tensor.calibration (mc.feature_configs.map (fun fc => fc.name))
      LayerOutputRange.inputToLattice)
    mc.feature_configs mc range 0 false
  if mc.output_calibration then build_output_calibration_layer lat mc else lat

/-- The output tensor `CalibratedLinear.__init__` builds: a linear layer over
the single calibration sub-graph, optionally output-calibrated. -/
def CalibratedLinear.model_output_of (mc : ModelConfig) : Tensor :=
  let range :=
    if mc.output_calibration then LayerOutputRange.inputToFinalCalibration
    else LayerOutputRange.modelOutput
  let lin := build_linear_layer
    (Tensor.calibration (mc.feature_configs.map (fun fc => fc.name)) range)
    mc.feature_configs mc (CalibratedLinear.weighted_average mc) 0
  if mc.output_calibration then build_output_calibration_layer lin mc else lin

theorem CalibratedLattice.init_build_lattice (mc : ModelConfig) (kwargs : Kwargs)
    (hk : (kwargs.keys.contains "inputs" && kwargs.keys.contains "outputs") = false)
    (ht : mc.ctype = ConfigType.latticeConfig)
    (hv : verify_config (some mc) = Except.ok ()) :
    CalibratedLattice.init (some mc) kwargs =
      Except.ok { model_config := some mc,
                  inputs := mc.feature_configs.map (fun fc => Tensor.input fc.name false),
                  outputs := [CalibratedLattice.model_output_of mc] } := by
  simp only [CalibratedLattice.init, hk, Bool.false_eq_true, if_false, ht, hv,
    build_calibration_layers, List.map, inputs_mapME, kerasModelInit,
    CalibratedLattice.model_output_of, ne_eq, not_true_eq_false]

theorem CalibratedLinear.init_build_linear (mc : ModelConfig) (kwargs : Kwargs)
    (hk : (kwargs.keys.contains "inputs" && kwargs.keys.contains "outputs") = false)
    (ht : mc.ctype = ConfigType.linearConfig)
    (hv : verify_config (some mc) = Except.ok ()) :
    CalibratedLinear.init (some mc) kwargs =
      Except.ok { model_config := some mc,
                  inputs := mc.feature_configs.map (fun fc => Tensor.input fc.name false),
                  outputs := [CalibratedLinear.model_output_of mc] } := by
  simp only [CalibratedLinear.init, hk, Bool.false_eq_true, if_false, ht, hv,
    build_calibration_layers, List.map, inputs_mapME, kerasModelInit,
    CalibratedLinear.model_output_of, ne_eq, not_true_eq_false]

theorem CalibratedLatticeEnsemble.lattice_outputs_ok {mc : ModelConfig}
    (ht : mc.ctype = ConfigType.ensembleConfig)
    (hv : verify_config (some mc) = Except.ok ()) :
    ∃ louts, CalibratedLatticeEnsemble.lattice_outputs mc = Except.ok louts ∧
      louts.length = mc.lattices.length := by
  obtain ⟨-, hall⟩ := verify_config_ensemble_lattices ht hv
  unfold CalibratedLatticeEnsemble.lattice_outputs
  have hsub : (build_calibration_layers (build_input_layer mc.feature_configs false)
      mc.feature_configs mc LayerOutputRange.inputToLattice mc.lattices
      mc.separate_calibrators).length = mc.lattices.length := by
    simp [build_calibration_layers]
  refine Exists.imp (fun ys hy => ⟨hy.1, ?_⟩) (mapME_of_forall_ok (fun p hp => ?_))
  · rw [hy.2, List.enum_length, List.length_zip, hsub, Nat.min_self]
  · have hmemzip : (p.2.1, p.2.2) ∈ mc.lattices.zip
        (build_calibration_layers (build_input_layer mc.feature_configs false)
          mc.feature_configs mc LayerOutputRange.inputToLattice mc.lattices
          mc.separate_calibrators) := by
      rw [Prod.mk.eta]
      exact mem_of_mem_enum hp
    have hmeml : p.2.1 ∈ mc.lattices := (List.of_mem_zip hmemzip).1
    have hnames := List.all_eq_true.mp hall _ hmeml
    obtain ⟨lfcs, hlfcs, -⟩ := mapME_of_forall_ok
      (fun n hn => feature_config_by_name_ok (List.all_eq_true.mp hnames n hn))
    exact ⟨_, by rw [hlfcs]⟩

theorem CalibratedLatticeEnsemble.init_build_ensemble (mc : ModelConfig) (kwargs : Kwargs)
    (hk : (kwargs.keys.contains "inputs" && kwargs.keys.contains "outputs") = false)
    (ht : mc.ctype = ConfigType.ensembleConfig)
    (hv : verify_config (some mc) = Except.ok ()) :
    ∃ t, CalibratedLatticeEnsemble.init (some mc) kwargs =
      Except.ok { model_config := some mc,
                  inputs := mc.feature_configs.map (fun fc => Tensor.input fc.name false),
                  outputs := [t] } := by
  obtain ⟨louts, hl, hlen⟩ := CalibratedLatticeEnsemble.lattice_outputs_ok ht hv
  obtain ⟨hlat_ne, -⟩ := verify_config_ensemble_lattices ht hv
  have hne : louts ≠ [] := by
    intro h0
    exact hlat_ne (List.length_eq_zero.mp (by rw [← hlen, h0]; rfl))
  cases louts with
  | nil => exact absurd rfl hne
  | cons t0 rest =>
    cases rest with
    | nil =>
      refine ⟨if mc.output_calibration then build_output_calibration_layer t0 mc else t0, ?_⟩
      simp only [CalibratedLatticeEnsemble.init, hk, Bool.false_eq_true, if_false, ht, hv,
        hl, List.length_cons, List.length_nil, ne_eq, not_true_eq_false,
        inputs_mapME, kerasModelInit, Nat.lt_irrefl, gt_iff_lt, if_neg]
    | cons t1 rest2 =>
      refine ⟨if mc.output_calibration then
          build_output_calibration_layer (Tensor.average (t0 :: t1 :: rest2)) mc
        else Tensor.average (t0 :: t1 :: rest2), ?_⟩
      have hgt : (t0 :: t1 :: rest2).length > 1 := by
        simp [Nat.succ_lt_succ_iff]
      simp only [CalibratedLatticeEnsemble.init, hk, Bool.false_eq_true, if_false, ht, hv,
        hl, ne_eq, not_true_eq_false, inputs_mapME, kerasModelInit, hgt, if_pos]

/-- The inner `CalibratedLattice` model `AggregateFunction.__init__` constructs
(once per unit of `middle_dimension`). -/
def AggregateFunction.inner_lattice_model (mc : ModelConfig) : PremadeModel :=
  { model_config := some (AggregateFunction.calibrated_lattice_config mc)
    inputs := mc.feature_configs.map (fun fc => Tensor.input fc.name false)
    outputs := [CalibratedLattice.model_output_of
      (AggregateFunction.calibrated_lattice_config mc)] }

theorem AggregateFunction.inner_init_ok {mc : ModelConfig}
    (hne : mc.feature_configs ≠ []) :
    CalibratedLattice.init (some (AggregateFunction.calibrated_lattice_config mc))
      { keys := [], inputs := [], outputs := [] } =
      Except.ok (AggregateFunction.inner_lattice_model mc) :=
  CalibratedLattice.init_build_lattice _ _ rfl rfl
    (verify_config_of_nonempty_nonensemble hne (by simp [AggregateFunction.calibrated_lattice_config]))

theorem AggregateFunction.submodels_ok {mc : ModelConfig}
    (hne : mc.feature_configs ≠ []) :
    AggregateFunction.submodels mc =
      Except.ok (List.replicate mc.middle_dimension
        (AggregateFunction.inner_lattice_model mc)) := by
  unfold AggregateFunction.submodels
  rw [mapME_const_ok (AggregateFunction.inner_init_ok hne), List.length_range]

/-- The output tensor `AggregateFunction.__init__` builds: the aggregation
layer over the ragged input layer and the per-item outputs of the
`middle_dimension` inner calibrated-lattice models, optionally
output-calibrated. -/
def AggregateFunction.model_output_of (mc : ModelConfig) : Tensor :=
  let range :=
    if mc.output_calibration then LayerOutputRange.inputToFinalCalibration
    else LayerOutputRange.modelOutput
  let agg := build_aggregation_layer (build_input_layer mc.feature_configs true) mc
    (List.replicate mc.middle_dimension (AggregateFunction.inner_lattice_model mc).outputs)
    range 0
  if mc.output_calibration then build_output_calibration_layer agg mc else agg

theorem AggregateFunction.init_build_aggregate (mc : ModelConfig) (kwargs : Kwargs)
    (hk : (kwargs.keys.contains "inputs" && kwargs.keys.contains "outputs") = false)
    (ht : mc.ctype = ConfigType.aggregateConfig)
    (hv : verify_config (some mc) = Except.ok ()) :
    AggregateFunction.init (some mc) kwargs =
      Except.ok { model_config := some mc,
                  inputs := mc.feature_configs.map (fun fc => Tensor.input fc.name true),
                  outputs := [AggregateFunction.model_output_of mc] } := by
  have hne : mc.feature_configs ≠ [] := verify_config_features_nonempty hv
  simp only [AggregateFunction.init, hk, Bool.false_eq_true, if_false, ht, hv,
    AggregateFunction.submodels_ok hne, List.map_replicate, ne_eq, not_true_eq_false,
    inputs_mapME, kerasModelInit, AggregateFunction.model_output_of]

/-! ## Error paths of the constructors -/

theorem premadeInit_none (k : PremadeKind) (kwargs : Kwargs)
    (hk : (kwargs.keys.contains "inputs" && kwargs.keys.contains "outputs") = false) :
    premadeInit k none kwargs =
      Except.error (PyError.valueError "Must provide a model_config.") := by
  cases k <;>
    simp only [premadeInit, CalibratedLatticeEnsemble.init, CalibratedLattice.init,
      CalibratedLinear.init, AggregateFunction.init, hk, Bool.false_eq_true, if_false]

theorem premadeInit_wrong_type (k : PremadeKind) (c : ModelConfig) (kwargs : Kwargs)
    (hk : (kwargs.keys.contains "inputs" && kwargs.keys.contains "outputs") = false)
    (ht : c.ctype ≠ expectedConfigType k) :
    premadeInit k (some c) kwargs =
      Except.error (PyError.valueError "Invalid config type") := by
  cases k <;>
    simp only [expectedConfigType] at ht <;>
    simp only [premadeInit, CalibratedLatticeEnsemble.init, CalibratedLattice.init,
      CalibratedLinear.init, AggregateFunction.init, hk, Bool.false_eq_true, if_false,
      ne_eq, ht, not_false_eq_true, if_true, if_pos]

theorem premadeInit_verify_error (k : PremadeKind) (c : ModelConfig) (kwargs : Kwargs)
    (hk : (kwargs.keys.contains "inputs" && kwargs.keys.contains "outputs") = false)
    (ht : c.ctype = expectedConfigType k) (msg : String)
    (hv : verify_config (some c) = Except.error (PyError.valueError msg)) :
    premadeInit k (some c) kwargs =
      Except.error (PyError.valueError msg) := by
  cases k <;>
    simp only [expectedConfigType] at ht <;>
    simp only [premadeInit, CalibratedLatticeEnsemble.init, CalibratedLattice.init,
      CalibratedLinear.init, AggregateFunction.init, hk, Bool.false_eq_true, if_false,
      ne_eq, ht, not_true_eq_false, hv]

/-! ## The claims -/

/-- C1: for every one of the four premade model classes, a constructor call
without both `inputs` and `outputs` keyword arguments raises a descriptive
`ValueError` exactly when the `model_config` argument is `None`, is not an
instance of the config class the model kind expects, or is rejected by
`verify_config`; otherwise construction proceeds and builds the model. -/
theorem premade_construction_fails_fast_iff (k : PremadeKind)
    (mc? : Option ModelConfig) (kwargs : Kwargs)
    (hk : (kwargs.keys.contains "inputs" && kwargs.keys.contains "outputs") = false) :
    ((mc? = none ∨ ∃ c, mc? = some c ∧
        (c.ctype ≠ expectedConfigType k ∨ verify_config (some c) ≠ Except.ok ())) →
      ∃ msg, premadeInit k mc? kwargs = Except.error (PyError.valueError msg)) ∧
    (¬(mc? = none ∨ ∃ c, mc? = some c ∧
        (c.ctype ≠ expectedConfigType k ∨ verify_config (some c) ≠ Except.ok ())) →
      ∃ m, premadeInit k mc? kwargs = Except.ok m) := by
  constructor
  · rintro (rfl | ⟨c, rfl, hbad⟩)
    · exact ⟨_, premadeInit_none k kwargs hk⟩
    · by_cases ht : c.ctype = expectedConfigType k
      · have hv : verify_config (some c) ≠ Except.ok () := by
          rcases hbad with hbad | hbad
          · exact absurd ht hbad
          · exact hbad
        rcases verify_config_some_cases c with hok | ⟨msg, herr⟩
        · exact absurd hok hv
        · exact ⟨msg, premadeInit_verify_error k c kwargs hk ht msg herr⟩
      · exact ⟨_, premadeInit_wrong_type k c kwargs hk ht⟩
  · intro hgood
    push_neg at hgood
    obtain ⟨hnone, hsome⟩ := hgood
    cases mc? with
    | none => exact absurd rfl hnone
    | some c =>
      obtain ⟨ht, hvok⟩ := hsome c rfl
      cases k with
      | ensemble =>
        obtain ⟨t, hm⟩ := CalibratedLatticeEnsemble.init_build_ensemble c kwargs hk ht hvok
        exact ⟨_, hm⟩
      | lattice => exact ⟨_, CalibratedLattice.init_build_lattice c kwargs hk ht hvok⟩
      | linear => exact ⟨_, CalibratedLinear.init_build_linear c kwargs hk ht hvok⟩
      | aggregate => exact ⟨_, AggregateFunction.init_build_aggregate c kwargs hk ht hvok⟩

/-- C1 witness: at `model_config = None` the `CalibratedLattice` constructor
raises the descriptive `ValueError`. -/
theorem premade_construction_fails_fast_iff_witness :
    ∃ msg, premadeInit PremadeKind.lattice none
        { keys := [], inputs := [], outputs := [] } =
      Except.error (PyError.valueError msg) :=
  (premade_construction_fails_fast_iff PremadeKind.lattice none
    { keys := [], inputs := [], outputs := [] } rfl).1 (Or.inl rfl)

/-- C4: for every fully specified, valid configuration, each premade model
class produces a model with exactly one input tensor per entry of
`model_config.feature_configs`, in the order of the feature configs, and
exactly one output tensor. -/
theorem premade_io_counts (k : PremadeKind) (mc : ModelConfig) (kwargs : Kwargs)
    (hk : (kwargs.keys.contains "inputs" && kwargs.keys.contains "outputs") = false)
    (ht : mc.ctype = expectedConfigType k)
    (hv : verify_config (some mc) = Except.ok ()) :
    ∃ m, premadeInit k (some mc) kwargs = Except.ok m ∧
      m.inputs = mc.feature_configs.map (fun fc => Tensor.input fc.name (premadeRagged k)) ∧
      m.inputs.length = mc.feature_configs.length ∧
      ∃ t, m.outputs = [t] := by
  cases k with
  | ensemble =>
    obtain ⟨t, hm⟩ := CalibratedLatticeEnsemble.init_build_ensemble mc kwargs hk ht hv
    exact ⟨_, by simpa [premadeInit] using hm, rfl, by simp, t, rfl⟩
  | lattice =>
    exact ⟨_, by simpa [premadeInit] using CalibratedLattice.init_build_lattice mc kwargs hk ht hv,
      rfl, by simp, _, rfl⟩
  | linear =>
    exact ⟨_, by simpa [premadeInit] using CalibratedLinear.init_build_linear mc kwargs hk ht hv,
      rfl, by simp, _, rfl⟩
  | aggregate =>
    exact ⟨_, by simpa [premadeInit] using AggregateFunction.init_build_aggregate mc kwargs hk ht hv,
      rfl, by simp, _, rfl⟩

/-- A sample feature configuration used to witness the theorems on concrete
inputs. -/
def sampleFeature : FeatureConfig := { name := "x" }

/-- A sample fully specified `CalibratedLatticeConfig`. -/
def sampleLatticeConfig : ModelConfig :=
  { ctype := ConfigType.latticeConfig
    feature_configs := [sampleFeature]
    regularizer_configs := []
    lattices := []
    separate_calibrators := false
    output_calibration := false
    output_min := none
    output_max := none
    output_initialization := [0, 1]
    middle_dimension := 1 }

/-- Empty keyword arguments: the ordinary construction path. -/
def kwEmpty : Kwargs := { keys := [], inputs := [], outputs := [] }

/-- Keyword arguments containing `inputs` and `outputs`: the loading path. -/
def kwLoad : Kwargs := { keys := ["inputs", "outputs"], inputs := [], outputs := [] }

/-- C4 witness: the sample lattice config yields one input and one output. -/
theorem premade_io_counts_witness :
    ∃ m, premadeInit PremadeKind.lattice (some sampleLatticeConfig) kwEmpty = Except.ok m ∧
      m.inputs = sampleLatticeConfig.feature_configs.map
        (fun fc => Tensor.input fc.name (premadeRagged PremadeKind.lattice)) ∧
      m.inputs.length = sampleLatticeConfig.feature_configs.length ∧
      ∃ t, m.outputs = [t] :=
  premade_io_counts PremadeKind.lattice sampleLatticeConfig kwEmpty rfl rfl rfl

/-- C6: for every premade model class, a successful construction stores the
very configuration object supplied by the caller as the model's
`model_config` attribute (and, the embedding being pure, leaves it
unaltered). -/
theorem premade_config_passthrough (k : PremadeKind) (mc? : Option ModelConfig)
    (kwargs : Kwargs) (m : PremadeModel)
    (h : premadeInit k mc? kwargs = Except.ok m) : m.model_config = mc? := by
  cases k
  case ensemble =>
    simp only [premadeInit] at h
    unfold CalibratedLatticeEnsemble.init at h
    repeat'
      first
      | split at h
      | (dsimp only at h; split at h)
    all_goals
      first
      | (injection h with h2; subst h2; rfl)
      | injection h
  case lattice =>
    simp only [premadeInit] at h
    unfold CalibratedLattice.init at h
    repeat'
      first
      | split at h
      | (dsimp only at h; split at h)
    all_goals
      first
      | (injection h with h2; subst h2; rfl)
      | injection h
  case linear =>
    simp only [premadeInit] at h
    unfold CalibratedLinear.init at h
    repeat'
      first
      | split at h
      | (dsimp only at h; split at h)
    all_goals
      first
      | (injection h with h2; subst h2; rfl)
      | injection h
  case aggregate =>
    simp only [premadeInit] at h
    unfold AggregateFunction.init at h
    repeat'
      first
      | split at h
      | (dsimp only at h; split at h)
    all_goals
      first
      | (injection h with h2; subst h2; rfl)
      | injection h

/-- C6 witness: the loading path stores the supplied config object. -/
theorem premade_config_passthrough_witness :
    (kerasModelInit (some sampleLatticeConfig) kwLoad).model_config =
      some sampleLatticeConfig :=
  premade_config_passthrough PremadeKind.lattice (some sampleLatticeConfig) kwLoad _ rfl

/-- C8: for every premade model class, when the keyword arguments contain both
`inputs` and `outputs` the constructor skips every validation step: it stores
whatever `model_config` was given (here `None`) and returns the model the
framework constructor builds from the keyword arguments. -/
theorem premade_loading_skips_validation (k : PremadeKind) (mc? : Option ModelConfig)
    (kwargs : Kwargs)
    (h1 : kwargs.keys.contains "inputs" = true)
    (h2 : kwargs.keys.contains "outputs" = true) :
    premadeInit k mc? kwargs = Except.ok (kerasModelInit mc? kwargs) ∧
      (kerasModelInit mc? kwargs).model_config = mc? := by
  refine ⟨?_, rfl⟩
  cases k <;>
    simp only [premadeInit, CalibratedLatticeEnsemble.init, CalibratedLattice.init,
      CalibratedLinear.init, AggregateFunction.init, h1, h2, Bool.and_self, if_true, if_pos]

/-- C8 witness: with `inputs` and `outputs` supplied, construction succeeds
even though `model_config` is `None`. -/
theorem premade_loading_skips_validation_witness :
    premadeInit PremadeKind.linear none kwLoad = Except.ok (kerasModelInit none kwLoad) ∧
      (kerasModelInit none kwLoad).model_config = none :=
  premade_loading_skips_validation PremadeKind.linear none kwLoad rfl rfl

/-- C5: for every premade model class, `get_config` returns exactly the host
framework's serialization dictionary extended with one additional
`model_config` entry holding the serialized configuration; every other entry
is left unchanged. -/
theorem premade_get_config_extends_keras (k : PremadeKind) (m : PremadeModel) :
    premadeGetConfigOf k m =
      kerasModelGetConfig m ++
        [("model_config", serialize_keras_object m.model_config)] := by
  cases k <;>
    simp [premadeGetConfigOf, CalibratedLatticeEnsemble.get_config,
      CalibratedLattice.get_config, CalibratedLinear.get_config,
      AggregateFunction.get_config, dictSet, kerasModelGetConfig]

/-- The shared round-trip computation behind every premade class's
`from_config (get_config m)`. -/
theorem premadeModelFromConfig_roundtrip (m : PremadeModel) (c : ModelConfig)
    (hm : m.model_config = some c)
    (hv : verify_config (some c) = Except.ok ()) :
    premadeModelFromConfig (dictSet (kerasModelGetConfig m) "model_config"
        (serialize_keras_object m.model_config)) =
      Except.ok { kerasModelFromConfig (dictSet (kerasModelGetConfig m) "model_config"
          (serialize_keras_object m.model_config)) with model_config := some c } := by
  have hbase : dictGet (dictSet (kerasModelGetConfig m) "model_config"
      (serialize_keras_object m.model_config)) "model_config" =
      SerializedValue.configDict c := by
    simp [dictGet, dictSet, kerasModelGetConfig, dictLookup, hm, serialize_keras_object]
  simp only [premadeModelFromConfig, tryLoadModelConfig, hbase,
    deserialize_keras_object, hv]

/-- C3: for every premade model whose `model_config` deserializes back from its
serialized form and passes `verify_config`, `from_config (get_config m)`
returns a model whose `model_config` equals the configuration that produced
`m`. -/
theorem premade_config_roundtrip (k : PremadeKind) (m : PremadeModel) (c : ModelConfig)
    (hm : m.model_config = some c)
    (hv : verify_config (some c) = Except.ok ()) :
    ∃ m2, premadeFromConfigOf k (premadeGetConfigOf k m) = Except.ok m2 ∧
      m2.model_config = some c := by
  cases k <;>
    exact ⟨_, premadeModelFromConfig_roundtrip m c hm hv, rfl⟩

/-- A sample model carrying the sample lattice config, used to witness the
round-trip on a concrete input. -/
def sampleModel : PremadeModel :=
  { model_config := some sampleLatticeConfig
    inputs := [Tensor.input "x" false]
    outputs := [Tensor.input "x" false] }

/-- C3 witness: the round-trip at the sample model. -/
theorem premade_config_roundtrip_witness :
    ∃ m2, premadeFromConfigOf PremadeKind.lattice
        (premadeGetConfigOf PremadeKind.lattice sampleModel) = Except.ok m2 ∧
      m2.model_config = some sampleLatticeConfig :=
  premade_config_roundtrip PremadeKind.lattice sampleModel sampleLatticeConfig rfl rfl

/-- A serialized configuration dictionary whose embedded `model_config` blob
raises a `TypeError` on deserialization. -/
def badTypeConfigDict : List (String × SerializedValue) :=
  [("layers", SerializedValue.graph [] []),
   ("model_config", SerializedValue.badType "corrupt blob")]

/-- C2 counterexample: a `TypeError` raised while deserializing the embedded
`model_config` is not caught: `from_config` propagates it instead of returning
the model reconstructed from the graph, so the downgrade-to-warning fallback
does not apply to every failure class. -/
theorem premade_from_config_typeerror_propagates :
    CalibratedLatticeEnsemble.from_config badTypeConfigDict =
      Except.error (PyError.typeError "corrupt blob") := rfl

/-- C2 (amended): for every premade model class, a failure of the embedded
configuration's deserialization or verification is caught and downgraded to a
logged warning — with `from_config` returning the model reconstructed from
the graph alone — exactly when the failure is a `ValueError`; a failure of
any other exception class propagates out of `from_config`. -/
theorem premade_from_config_catches_only_valueerror (k : PremadeKind)
    (config : List (String × SerializedValue)) :
    (∀ msg, tryLoadModelConfig config = Except.error (PyError.valueError msg) →
      premadeFromConfigOf k config = Except.ok (kerasModelFromConfig config)) ∧
    (∀ e, tryLoadModelConfig config = Except.error e →
      (∀ msg, e ≠ PyError.valueError msg) →
      premadeFromConfigOf k config = Except.error e) := by
  constructor
  · intro msg h
    cases k <;>
      simp [premadeFromConfigOf, CalibratedLatticeEnsemble.from_config,
        CalibratedLattice.from_config, CalibratedLinear.from_config,
        AggregateFunction.from_config, premadeModelFromConfig, h]
  · intro e h hne
    cases k <;>
      simp only [premadeFromConfigOf, CalibratedLatticeEnsemble.from_config,
        CalibratedLattice.from_config, CalibratedLinear.from_config,
        AggregateFunction.from_config, premadeModelFromConfig, h]

/-- A serialized configuration dictionary whose embedded `model_config` blob
raises a `ValueError` on deserialization. -/
def badValueConfigDict : List (String × SerializedValue) :=
  [("layers", SerializedValue.graph [] []),
   ("model_config", SerializedValue.badValue "corrupt blob")]

/-- C2 witness: a `ValueError` during deserialization is downgraded and the
graph-only model is returned. -/
theorem premade_from_config_catches_only_valueerror_witness :
    premadeFromConfigOf PremadeKind.ensemble badValueConfigDict =
      Except.ok (kerasModelFromConfig badValueConfigDict) :=
  (premade_from_config_catches_only_valueerror PremadeKind.ensemble
    badValueConfigDict).1 "corrupt blob" rfl

/-- C7: the `AggregateFunction` model treats its features as ragged inputs —
its input layer is built with `ragged = true` — and its output is produced by
an aggregation layer combining the per-item outputs of the inner
calibrated-lattice submodels into one tensor. -/
theorem aggregate_ragged_inputs_and_aggregation (mc : ModelConfig) (kwargs : Kwargs)
    (hk : (kwargs.keys.contains "inputs" && kwargs.keys.contains "outputs") = false)
    (ht : mc.ctype = ConfigType.aggregateConfig)
    (hv : verify_config (some mc) = Except.ok ()) :
    AggregateFunction.init (some mc) kwargs =
      Except.ok { model_config := some mc,
                  inputs := mc.feature_configs.map (fun fc => Tensor.input fc.name true),
                  outputs := [AggregateFunction.model_output_of mc] } ∧
    AggregateFunction.submodels mc =
      Except.ok (List.replicate mc.middle_dimension
        (AggregateFunction.inner_lattice_model mc)) ∧
    AggregateFunction.model_output_of mc =
      (if mc.output_calibration then
        Tensor.outputCal (Tensor.aggregation
          (mc.feature_configs.map (fun fc => Tensor.input fc.name true))
          (List.replicate mc.middle_dimension
            (AggregateFunction.inner_lattice_model mc).outputs)
          LayerOutputRange.inputToFinalCalibration 0)
      else
        Tensor.aggregation
          (mc.feature_configs.map (fun fc => Tensor.input fc.name true))
          (List.replicate mc.middle_dimension
            (AggregateFunction.inner_lattice_model mc).outputs)
          LayerOutputRange.modelOutput 0) := by
  have hne := verify_config_features_nonempty hv
  refine ⟨AggregateFunction.init_build_aggregate mc kwargs hk ht hv,
    AggregateFunction.submodels_ok hne, ?_⟩
  cases hoc : mc.output_calibration <;>
    simp [AggregateFunction.model_output_of, build_aggregation_layer, build_input_layer,
      build_output_calibration_layer, List.map_map, Function.comp, hoc]

/-- A sample fully specified `AggregateFunctionConfig`. -/
def sampleAggregateConfig : ModelConfig :=
  { ctype := ConfigType.aggregateConfig
    feature_configs := [sampleFeature]
    regularizer_configs := []
    lattices := []
    separate_calibrators := false
    output_calibration := false
    output_min := none
    output_max := none
    output_initialization := [-1, 1]
    middle_dimension := 2 }

/-- C7 witness: the sample aggregate config builds with ragged inputs and an
aggregation output. -/
theorem aggregate_ragged_inputs_and_aggregation_witness :
    AggregateFunction.init (some sampleAggregateConfig) kwEmpty =
      Except.ok { model_config := some sampleAggregateConfig,
                  inputs := sampleAggregateConfig.feature_configs.map
                    (fun fc => Tensor.input fc.name true),
                  outputs := [AggregateFunction.model_output_of sampleAggregateConfig] } :=
  (aggregate_ragged_inputs_and_aggregation sampleAggregateConfig kwEmpty rfl rfl rfl).1

/-- C9: for every valid `AggregateFunctionConfig`, the constructor builds
exactly `middle_dimension` inner `CalibratedLattice` submodels, each from a
`CalibratedLatticeConfig` with the aggregate config's feature and regularizer
configs, `output_min = -1`, `output_max = 1` and
`output_initialization = [-1, 1]`. -/
theorem aggregate_submodel_configs (mc : ModelConfig)
    (ht : mc.ctype = ConfigType.aggregateConfig)
    (hv : verify_config (some mc) = Except.ok ()) :
    ∃ cl, CalibratedLattice.init (some (AggregateFunction.calibrated_lattice_config mc))
        { keys := [], inputs := [], outputs := [] } = Except.ok cl ∧
      AggregateFunction.submodels mc =
        Except.ok (List.replicate mc.middle_dimension cl) ∧
      (List.replicate mc.middle_dimension cl).length = mc.middle_dimension ∧
      (AggregateFunction.calibrated_lattice_config mc).ctype = ConfigType.latticeConfig ∧
      (AggregateFunction.calibrated_lattice_config mc).feature_configs =
        mc.feature_configs ∧
      (AggregateFunction.calibrated_lattice_config mc).regularizer_configs =
        mc.regularizer_configs ∧
      (AggregateFunction.calibrated_lattice_config mc).output_min = some (-1) ∧
      (AggregateFunction.calibrated_lattice_config mc).output_max = some 1 ∧
      (AggregateFunction.calibrated_lattice_config mc).output_initialization = [-1, 1] := by
  have hne := verify_config_features_nonempty hv
  exact ⟨_, AggregateFunction.inner_init_ok hne, AggregateFunction.submodels_ok hne,
    List.length_replicate _ _, rfl, rfl, rfl, rfl, rfl, rfl⟩

/-- C9 witness: the sample aggregate config yields two inner submodels with
the expected derived lattice config. -/
theorem aggregate_submodel_configs_witness :
    ∃ cl, CalibratedLattice.init
        (some (AggregateFunction.calibrated_lattice_config sampleAggregateConfig))
        { keys := [], inputs := [], outputs := [] } = Except.ok cl ∧
      AggregateFunction.submodels sampleAggregateConfig =
        Except.ok (List.replicate sampleAggregateConfig.middle_dimension cl) ∧
      (List.replicate sampleAggregateConfig.middle_dimension cl).length =
        sampleAggregateConfig.middle_dimension ∧
      (AggregateFunction.calibrated_lattice_config sampleAggregateConfig).ctype =
        ConfigType.latticeConfig ∧
      (AggregateFunction.calibrated_lattice_config sampleAggregateConfig).feature_configs =
        sampleAggregateConfig.feature_configs ∧
      (AggregateFunction.calibrated_lattice_config sampleAggregateConfig).regularizer_configs =
        sampleAggregateConfig.regularizer_configs ∧
      (AggregateFunction.calibrated_lattice_config sampleAggregateConfig).output_min =
        some (-1) ∧
      (AggregateFunction.calibrated_lattice_config sampleAggregateConfig).output_max =
        some 1 ∧
      (AggregateFunction.calibrated_lattice_config sampleAggregateConfig).output_initialization =
        [-1, 1] :=
  aggregate_submodel_configs sampleAggregateConfig rfl rfl

/-- C10: for every valid `CalibratedLinearConfig`, the constructor passes
`weighted_average = true` to the linear layer builder exactly when
`output_min` is not `None`, or `output_max` is not `None`, or
`output_calibration` is set; otherwise it passes `false`. -/
theorem linear_weighted_average_iff (mc : ModelConfig) (kwargs : Kwargs)
    (hk : (kwargs.keys.contains "inputs" && kwargs.keys.contains "outputs") = false)
    (ht : mc.ctype = ConfigType.linearConfig)
    (hv : verify_config (some mc) = Except.ok ()) :
    CalibratedLinear.init (some mc) kwargs =
      Except.ok { model_config := some mc,
                  inputs := mc.feature_configs.map (fun fc => Tensor.input fc.name false),
                  outputs := [CalibratedLinear.model_output_of mc] } ∧
    (CalibratedLinear.weighted_average mc = true ↔
      (mc.output_min ≠ none ∨ mc.output_max ≠ none ∨ mc.output_calibration = true)) ∧
    (CalibratedLinear.weighted_average mc = false ↔
      ¬(mc.output_min ≠ none ∨ mc.output_max ≠ none ∨ mc.output_calibration = true)) := by
  refine ⟨CalibratedLinear.init_build_linear mc kwargs hk ht hv, ?_, ?_⟩ <;>
    simp [CalibratedLinear.weighted_average, Bool.or_eq_true, Option.isSome_iff_ne_none,
      not_or, Bool.or_eq_false_iff, or_assoc, and_assoc]

/-- A sample fully specified `CalibratedLinearConfig` with a lower output
bound. -/
def sampleLinearConfig : ModelConfig :=
  { ctype := ConfigType.linearConfig
    feature_configs := [sampleFeature]
    regularizer_configs := []
    lattices := []
    separate_calibrators := false
    output_calibration := false
    output_min := some 0
    output_max := none
    output_initialization := [0, 1]
    middle_dimension := 1 }

/-- C10 witness: the sample linear config (bounded below) gets
`weighted_average = true`. -/
theorem linear_weighted_average_iff_witness :
    CalibratedLinear.init (some sampleLinearConfig) kwEmpty =
      Except.ok { model_config := some sampleLinearConfig,
                  inputs := sampleLinearConfig.feature_configs.map
                    (fun fc => Tensor.input fc.name false),
                  outputs := [CalibratedLinear.model_output_of sampleLinearConfig] } ∧
    (CalibratedLinear.weighted_average sampleLinearConfig = true ↔
      (sampleLinearConfig.output_min ≠ none ∨ sampleLinearConfig.output_max ≠ none ∨
        sampleLinearConfig.output_calibration = true)) ∧
    (CalibratedLinear.weighted_average sampleLinearConfig = false ↔
      ¬(sampleLinearConfig.output_min ≠ none ∨ sampleLinearConfig.output_max ≠ none ∨
        sampleLinearConfig.output_calibration = true)) :=
  linear_weighted_average_iff sampleLinearConfig kwEmpty rfl rfl rfl

end Premade
